import Mathlib

/-!
Shallow embedding of the dataset/transform logic of
`notebooks/class/2_work_with_pytorch_datasets.ipynb`
(`RandomVectorDataset`, `Add2`, `ToTorchTensor`, `Compose`),
together with proofs of the specified properties.

NumPy arrays are modelled by their shape and a flat (row-major) data
buffer; `np.random.randn` is modelled by an arbitrary entry generator
(the randomness oracle), since the claims never depend on the float
distribution.  Python exceptions are modelled by `Except PyErr`.
-/

/-- Python exceptions that the modelled code can raise. -/
inductive PyErr where
  | indexError : PyErr
  | typeError : PyErr
  | raised : String → PyErr
deriving DecidableEq, Repr

/-- An n-dimensional numeric array in NumPy's storage model: a shape and a
flat row-major data buffer.  Entries are modelled as integers because no
claim depends on float semantics. -/
structure NDArray where
  shape : List Nat
  data : List Int
deriving DecidableEq, Repr

/-- Model of `np.random.randn(*shape)`: an array of the given shape whose
entries come from the generator `g` (the randomness oracle), indexed by
flat position. -/
def randn (shape : List Nat) (g : Nat → Int) : NDArray :=
  ⟨shape, (List.range shape.prod).map g⟩

/-- Leading dimension `a.shape[0]`: reading `shape[0]` of a 0-d array
raises in Python, hence the `Except`. -/
def NDArray.dim0 (a : NDArray) : Except PyErr Nat :=
  match a.shape with
  | [] => .error .indexError
  | n :: _ => .ok n

/-- NumPy basic indexing `a[idx]` along axis 0: a negative index is first
shifted by the leading dimension; an index outside `[-n, n)` raises
`IndexError`; otherwise the result is the selected row (the contiguous
chunk of the flat buffer), one dimension lower. -/
def NDArray.index (a : NDArray) (idx : Int) : Except PyErr NDArray :=
  match a.shape with
  | [] => .error .indexError
  | n :: rest =>
      let j : Int := if idx < 0 then idx + n else idx
      if 0 ≤ j ∧ j < (n : Int) then
        let sz := rest.prod
        .ok ⟨rest, (a.data.drop (j.toNat * sz)).take sz⟩
      else
        .error .indexError

/-- Elementwise `a + c` (NumPy broadcasting of a scalar). -/
def NDArray.addScalar (a : NDArray) (c : Int) : NDArray :=
  ⟨a.shape, a.data.map (· + c)⟩

/-- The value stored under the sample's key: either a NumPy array or a
torch tensor (as produced by `torch.from_numpy`). -/
inductive Value where
  | npArray : NDArray → Value
  | torchTensor : NDArray → Value
deriving DecidableEq, Repr

/-- A sample: the dict `{'random_vector': value}` built by
`RandomVectorDataset.__getitem__`. -/
structure Sample where
  random_vector : Value
deriving DecidableEq, Repr

/-- `sample['random_vector'] + 2`-style elementwise addition on a value. -/
def Value.addScalar (v : Value) (c : Int) : Value :=
  match v with
  | .npArray a => .npArray (a.addScalar c)
  | .torchTensor a => .torchTensor (a.addScalar c)

/-- `Add2.__call__`: returns `{'random_vector': sample['random_vector'] + 2}`.
Never raises. -/
def Add2 (s : Sample) : Except PyErr Sample :=
  .ok ⟨s.random_vector.addScalar 2⟩

/-- `ToTorchTensor.__call__`: returns
`{'random_vector': torch.from_numpy(sample['random_vector'])}`;
`torch.from_numpy` raises `TypeError` unless given a NumPy array. -/
def ToTorchTensor (s : Sample) : Except PyErr Sample :=
  match s.random_vector with
  | .npArray a => .ok ⟨.torchTensor a⟩
  | .torchTensor _ => .error .typeError

/-- `torchvision.transforms.Compose`: applies each transform in the
supplied order, threading the sample through; a raise in any transform
aborts the chain. -/
def Compose (ts : List (Sample → Except PyErr Sample)) (s : Sample) :
    Except PyErr Sample :=
  ts.foldl (fun acc t => acc >>= t) (.ok s)

/-- `RandomVectorDataset`: the stored generated array and the optional
transform (`None` ↦ `none`). -/
structure RandomVectorDataset where
  raw_data : NDArray
  transform : Option (Sample → Except PyErr Sample)

/-- `RandomVectorDataset.__init__(random_shape, transform)`: stores
`np.random.randn(*random_shape)` (via the generator `g`) and the
transform. -/
def RandomVectorDataset.make (random_shape : List Nat)
    (transform : Option (Sample → Except PyErr Sample)) (g : Nat → Int) :
    RandomVectorDataset :=
  ⟨randn random_shape g, transform⟩

/-- `__len__`, in explicit state-passing style: the method reads
`self.raw_data.shape[0]` and returns the object state unchanged. -/
def RandomVectorDataset.lenS (self : RandomVectorDataset) :
    RandomVectorDataset × Except PyErr Nat :=
  (self, self.raw_data.dim0)

/-- `__getitem__(idx)`, in explicit state-passing style, translated
statement by statement: build `sample = {'random_vector': raw_data[idx]}`
(propagating an `IndexError`), apply the transform if one is configured,
return the sample; the method assigns only the local `sample`, so the
object state it returns is the state it received. -/
def RandomVectorDataset.getitemS (self : RandomVectorDataset) (idx : Int) :
    RandomVectorDataset × Except PyErr Sample :=
  match self.raw_data.index idx with
  | .error e => (self, .error e)
  | .ok row =>
      let sample : Sample := ⟨.npArray row⟩
      match self.transform with
      | none => (self, .ok sample)
      | some t => (self, t sample)

/-- The result of `len(dataset)`. -/
def RandomVectorDataset.len (self : RandomVectorDataset) : Except PyErr Nat :=
  (self.lenS).2

/-- The result of `dataset[idx]`. -/
def RandomVectorDataset.getitem (self : RandomVectorDataset) (idx : Int) :
    Except PyErr Sample :=
  (self.getitemS idx).2

/-- Whether a Python call returned normally. -/
def pyOk {α : Type} : Except PyErr α → Bool
  | .ok _ => true
  | .error _ => false

/-- A transform that always raises, used to exercise error propagation. -/
def failingTransform (msg : String) : Sample → Except PyErr Sample :=
  fun _ => .error (.raised msg)

/-- A concrete source of shape `[10, 5]` with all-zero generated entries
and no transform. -/
def demoSource : RandomVectorDataset :=
  RandomVectorDataset.make [10, 5] none (fun _ => 0)

/-- A concrete source of shape `[10, 5]` whose transform is
`Compose([Add2(), ToTorchTensor()])`, as built in the notebook. -/
def demoComposed : RandomVectorDataset :=
  RandomVectorDataset.make [10, 5] (some (Compose [Add2, ToTorchTensor])) (fun _ => 0)

/-- A concrete source of shape `[10, 5]` whose transform always raises. -/
def demoFailing : RandomVectorDataset :=
  RandomVectorDataset.make [10, 5] (some (failingTransform "boom")) (fun _ => 0)

/- Helper lemmas about the embedded operations. -/

theorem len_cons (m : Nat) (rest : List Nat) (da : List Int)
    (t : Option (Sample → Except PyErr Sample)) :
    RandomVectorDataset.len ⟨⟨m :: rest, da⟩, t⟩ = .ok m := rfl

theorem len_nil (da : List Int) (t : Option (Sample → Except PyErr Sample)) :
    RandomVectorDataset.len ⟨⟨[], da⟩, t⟩ = .error .indexError := rfl

theorem index_cons_out (m : Nat) (rest : List Nat) (da : List Int) (i : Int)
    (h : i < -(m : Int) ∨ (m : Int) ≤ i) :
    NDArray.index ⟨m :: rest, da⟩ i = .error .indexError := by
  have hcond : ¬ (0 ≤ (if i < 0 then i + (m : Int) else i) ∧
      (if i < 0 then i + (m : Int) else i) < (m : Int)) := by
    split <;> omega
  simp only [NDArray.index]
  rw [if_neg hcond]

theorem index_cons_in (m : Nat) (rest : List Nat) (da : List Int) (i : Int)
    (h0 : 0 ≤ i) (hm : i < (m : Int)) :
    NDArray.index ⟨m :: rest, da⟩ i =
      .ok ⟨rest, (da.drop (i.toNat * rest.prod)).take rest.prod⟩ := by
  have hi : ¬ i < 0 := by omega
  simp only [NDArray.index]
  rw [if_neg hi, if_pos ⟨h0, hm⟩]

theorem index_cons_neg (m : Nat) (rest : List Nat) (da : List Int) (i : Int)
    (hlo : -(m : Int) ≤ i) (hhi : i < 0) :
    NDArray.index ⟨m :: rest, da⟩ i =
      .ok ⟨rest, (da.drop ((i + m).toNat * rest.prod)).take rest.prod⟩ := by
  have hcond : 0 ≤ i + (m : Int) ∧ i + (m : Int) < (m : Int) := by omega
  simp only [NDArray.index]
  rw [if_pos hhi, if_pos hcond]

theorem getitem_error (a : NDArray) (t : Option (Sample → Except PyErr Sample))
    (i : Int) (e : PyErr) (h : a.index i = .error e) :
    RandomVectorDataset.getitem ⟨a, t⟩ i = .error e := by
  simp only [RandomVectorDataset.getitem, RandomVectorDataset.getitemS, h]

theorem getitem_ok_none (a : NDArray) (i : Int) (row : NDArray)
    (h : a.index i = .ok row) :
    RandomVectorDataset.getitem ⟨a, none⟩ i = .ok ⟨.npArray row⟩ := by
  simp only [RandomVectorDataset.getitem, RandomVectorDataset.getitemS, h]

theorem getitem_ok_some (a : NDArray) (f : Sample → Except PyErr Sample)
    (i : Int) (row : NDArray) (h : a.index i = .ok row) :
    RandomVectorDataset.getitem ⟨a, some f⟩ i = f ⟨.npArray row⟩ := by
  simp only [RandomVectorDataset.getitem, RandomVectorDataset.getitemS, h]

theorem getitem_congr_index (a : NDArray)
    (t : Option (Sample → Except PyErr Sample)) (i k : Int)
    (h : a.index i = a.index k) :
    RandomVectorDataset.getitem ⟨a, t⟩ i = RandomVectorDataset.getitem ⟨a, t⟩ k := by
  simp only [RandomVectorDataset.getitem, RandomVectorDataset.getitemS, h]

theorem getitemS_state (d : RandomVectorDataset) (i : Int) :
    (d.getitemS i).1 = d := by
  obtain ⟨a, t⟩ := d
  simp only [RandomVectorDataset.getitemS]
  cases a.index i with
  | error e => rfl
  | ok row => cases t <;> rfl

/- Claim theorems. -/

/-- C1 (amended): for every source and every index `i` with `i < -size()`
or `i >= size()`, `get(i)` fails with an IndexError (the OutOfRange
failure), propagated to the caller and not recovered locally.  (Indices
in `[-size(), 0)` do not fail the bounds check: NumPy wraps them, see the
counterexample below and C10.) -/
theorem c1_out_of_range_fails (d : RandomVectorDataset) (n : Nat) (i : Int)
    (hlen : d.len = .ok n) (h : i < -(n : Int) ∨ (n : Int) ≤ i) :
    d.getitem i = .error .indexError := by
  obtain ⟨⟨sh, da⟩, t⟩ := d
  cases sh with
  | nil => rw [len_nil] at hlen; exact Except.noConfusion hlen
  | cons m rest =>
      rw [len_cons] at hlen
      have hm : m = n := Except.ok.inj hlen
      subst hm
      exact getitem_error _ _ _ _ (index_cons_out m rest da i h)

/-- C1 witness: on the `[10, 5]` source, `get(10)` (with `10 >= size() = 10`)
fails with IndexError. -/
theorem c1_witness :
    demoSource.len = .ok 10 ∧
      ((10 : Int) < -((10 : Nat) : Int) ∨ ((10 : Nat) : Int) ≤ 10) ∧
      demoSource.getitem 10 = .error .indexError :=
  ⟨rfl, Or.inr (by decide),
    c1_out_of_range_fails demoSource 10 10 rfl (Or.inr (by decide))⟩

/-- C1 counterexample: on a size-10 source, the index `-1` satisfies
`i < 0` but `get(-1)` succeeds (NumPy wraps negative indices), refuting
the claim that every negative index fails. -/
theorem c1_counterexample :
    (-1 : Int) < 0 ∧ demoSource.len = .ok 10 ∧
      pyOk (demoSource.getitem (-1)) = true :=
  ⟨by decide, rfl, rfl⟩

/-- C2: for every source with no transform configured and every index
`0 <= i < size()`, the row lookup succeeds and `get(i)` returns the
Sample mapping the fixed key to exactly that raw row, unchanged. -/
theorem c2_no_transform_returns_raw_row (d : RandomVectorDataset) (n : Nat)
    (i : Int) (ht : d.transform = none) (hlen : d.len = .ok n)
    (h0 : 0 ≤ i) (hn : i < (n : Int)) :
    ∃ row : NDArray, d.raw_data.index i = .ok row ∧
      d.getitem i = .ok ⟨.npArray row⟩ := by
  obtain ⟨⟨sh, da⟩, t⟩ := d
  cases ht
  cases sh with
  | nil => rw [len_nil] at hlen; exact Except.noConfusion hlen
  | cons m rest =>
      rw [len_cons] at hlen
      have hm : m = n := Except.ok.inj hlen
      subst hm
      have hrow := index_cons_in m rest da i h0 hn
      exact ⟨_, hrow, getitem_ok_none _ _ _ hrow⟩

/-- C2 witness: instantiated on the `[10, 5]` all-zero source at `i = 3`. -/
theorem c2_witness :
    demoSource.transform = none ∧ demoSource.len = .ok 10 ∧
      (0 : Int) ≤ 3 ∧ (3 : Int) < ((10 : Nat) : Int) ∧
      (∃ row : NDArray, demoSource.raw_data.index 3 = .ok row ∧
        demoSource.getitem 3 = .ok ⟨.npArray row⟩) :=
  ⟨rfl, rfl, by decide, by decide,
    c2_no_transform_returns_raw_row demoSource 10 3 rfl rfl (by decide) (by decide)⟩

/-- C3: for every source whose transform is `Compose([T1, T2])` and every
index whose row lookup succeeds, `get(i)` equals `T2(T1(raw_sample(i)))`:
the transforms are applied sequentially in exactly the supplied order. -/
theorem c3_compose_order (t1 t2 : Sample → Except PyErr Sample)
    (d : RandomVectorDataset) (i : Int) (row : NDArray)
    (ht : d.transform = some (Compose [t1, t2]))
    (hrow : d.raw_data.index i = .ok row) :
    d.getitem i = t1 ⟨.npArray row⟩ >>= t2 := by
  obtain ⟨a, t⟩ := d
  cases ht
  rw [getitem_ok_some _ _ _ _ hrow]
  rfl

/-- C3 witness: instantiated with `Compose([Add2, ToTorchTensor])` on the
`[10, 5]` all-zero source at `i = 5`. -/
theorem c3_witness :
    demoComposed.transform = some (Compose [Add2, ToTorchTensor]) ∧
      demoComposed.raw_data.index 5 = .ok ⟨[5], List.replicate 5 0⟩ ∧
      demoComposed.getitem 5 =
        Add2 ⟨.npArray ⟨[5], List.replicate 5 0⟩⟩ >>= ToTorchTensor :=
  ⟨rfl, rfl,
    c3_compose_order Add2 ToTorchTensor demoComposed 5 ⟨[5], List.replicate 5 0⟩ rfl rfl⟩

/-- C4: for every source constructed with shape `n :: rest`, `size()`
returns `n`, the leading dimension of the stored generated array; in
particular a source built with shape `[10, 5]` has `size() = 10` and
`get(5)` returns a Sample whose array has shape `[5]`. -/
theorem c4_len_is_leading_dim :
    (∀ (n : Nat) (rest : List Nat)
        (t : Option (Sample → Except PyErr Sample)) (g : Nat → Int),
        (RandomVectorDataset.make (n :: rest) t g).len = .ok n) ∧
      (∀ g : Nat → Int, (RandomVectorDataset.make [10, 5] none g).len = .ok 10) ∧
      (∀ g : Nat → Int, ∃ row : NDArray,
        (RandomVectorDataset.make [10, 5] none g).getitem 5 = .ok ⟨.npArray row⟩ ∧
          row.shape = [5]) := by
  refine ⟨fun n rest t g => rfl, fun g => rfl, fun g => ?_⟩
  exact ⟨⟨[5], (((List.range 50).map g).drop 25).take 5⟩, rfl, rfl⟩

/-- C5: for every source with a configured transform and every index whose
row lookup succeeds, if the transform raises an error on the wrapped row,
`get` returns exactly that error: no retry, no recovery, no default
sample. -/
theorem c5_transform_error_propagates (d : RandomVectorDataset)
    (f : Sample → Except PyErr Sample) (i : Int) (row : NDArray) (e : PyErr)
    (ht : d.transform = some f)
    (hrow : d.raw_data.index i = .ok row)
    (hf : f ⟨.npArray row⟩ = .error e) :
    d.getitem i = .error e := by
  obtain ⟨a, t⟩ := d
  cases ht
  rw [getitem_ok_some _ _ _ _ hrow, hf]

/-- C5 witness: instantiated with an always-raising transform on the
`[10, 5]` all-zero source at `i = 5`. -/
theorem c5_witness :
    demoFailing.transform = some (failingTransform "boom") ∧
      demoFailing.raw_data.index 5 = .ok ⟨[5], List.replicate 5 0⟩ ∧
      failingTransform "boom" ⟨.npArray ⟨[5], List.replicate 5 0⟩⟩ =
        .error (.raised "boom") ∧
      demoFailing.getitem 5 = .error (.raised "boom") :=
  ⟨rfl, rfl, rfl,
    c5_transform_error_propagates demoFailing (failingTransform "boom") 5
      ⟨[5], List.replicate 5 0⟩ (.raised "boom") rfl rfl rfl⟩

/-- C6: for every source and every index, a second call to `get(i)` on the
object state left by the first call returns the same result as the first
call: the source is immutable, and transforms are pure functions in this
embedding, so repeated calls agree. -/
theorem c6_repeated_get_equal (d : RandomVectorDataset) (i : Int) :
    ((d.getitemS i).1.getitemS i).2 = (d.getitemS i).2 := by
  rw [getitemS_state]

/-- C7: the source is immutable after construction: neither `get` nor
`size` changes the object state, and `size()` equals the leading
dimension of the stored array (before and after any `get` call). -/
theorem c7_source_immutable (d : RandomVectorDataset) (i : Int) :
    (d.getitemS i).1 = d ∧ (d.lenS).1 = d ∧
      d.len = d.raw_data.dim0 ∧
      ((d.getitemS i).1).len = d.raw_data.dim0 := by
  refine ⟨getitemS_state d i, rfl, rfl, ?_⟩
  rw [getitemS_state]
  rfl

/-- C8: for every source constructed with a shape whose leading dimension
is `0`, `size()` returns `0` and `get(i)` fails with IndexError for every
index `i`. -/
theorem c8_empty_source (rest : List Nat)
    (t : Option (Sample → Except PyErr Sample)) (g : Nat → Int) (i : Int) :
    (RandomVectorDataset.make (0 :: rest) t g).len = .ok 0 ∧
      (RandomVectorDataset.make (0 :: rest) t g).getitem i = .error .indexError := by
  refine ⟨rfl, ?_⟩
  exact getitem_error _ _ _ _ (index_cons_out 0 _ _ i (by omega))

/-- C9: applying the `Add2` transform to a Sample whose value is the
vector `[1,1,1,1,1]` yields a Sample whose value is `[3,3,3,3,3]`. -/
theorem c9_add2_example :
    Add2 ⟨.npArray ⟨[5], List.replicate 5 1⟩⟩ =
      .ok ⟨.npArray ⟨[5], List.replicate 5 3⟩⟩ := rfl

/-- C10 (amended): for every source with `size() = n > 0` and every index
`-n <= i < 0`, the lookup delegates to NumPy indexing, which wraps
negative indices, so `get(i)` returns exactly the same result as
`get(n + i)`; in particular, when no transform is configured, `get(i)`
succeeds.  (With a raising transform both calls fail identically, see the
counterexample below.) -/
theorem c10_negative_index_wraps (d : RandomVectorDataset) (n : Nat) (i : Int)
    (hlen : d.len = .ok n) (hpos : 0 < n)
    (hlo : -(n : Int) ≤ i) (hhi : i < 0) :
    d.getitem i = d.getitem ((n : Int) + i) ∧
      (d.transform = none → pyOk (d.getitem i) = true) := by
  obtain ⟨⟨sh, da⟩, t⟩ := d
  cases sh with
  | nil => rw [len_nil] at hlen; exact Except.noConfusion hlen
  | cons m rest =>
      rw [len_cons] at hlen
      have hm : m = n := Except.ok.inj hlen
      subst hm
      have hneg := index_cons_neg m rest da i hlo hhi
      have hin := index_cons_in m rest da ((m : Int) + i) (by omega) (by omega)
      have hsame : NDArray.index ⟨m :: rest, da⟩ i =
          NDArray.index ⟨m :: rest, da⟩ ((m : Int) + i) := by
        rw [hneg, hin, Int.add_comm i (m : Int)]
      constructor
      · exact getitem_congr_index _ _ _ _ hsame
      · intro ht
        cases ht
        rw [getitem_ok_none _ _ _ hneg]
        rfl

/-- C10 witness: on the `[10, 5]` all-zero source, `get(-3)` equals
`get(10 + -3) = get(7)` and succeeds. -/
theorem c10_witness :
    demoSource.len = .ok 10 ∧ 0 < 10 ∧
      -((10 : Nat) : Int) ≤ -3 ∧ (-3 : Int) < 0 ∧
      (demoSource.getitem (-3) = demoSource.getitem (((10 : Nat) : Int) + -3) ∧
        (demoSource.transform = none → pyOk (demoSource.getitem (-3)) = true)) :=
  ⟨rfl, by decide, by decide, by decide,
    c10_negative_index_wraps demoSource 10 (-3) rfl (by decide) (by decide) (by decide)⟩

/-- C10 counterexample: the claim as stated says `get(i)` succeeds for
every source with `size() > 0` and every `-size() <= i < 0`; on the
size-10 source whose configured transform raises, `get(-1)` fails, so
unconditional success is false (only the equality with `get(n + i)`
holds). -/
theorem c10_counterexample :
    demoFailing.len = .ok 10 ∧
      -((10 : Nat) : Int) ≤ -1 ∧ (-1 : Int) < 0 ∧
      demoFailing.getitem (-1) = .error (.raised "boom") :=
  ⟨rfl, by decide, by decide, rfl⟩
